import Mathlib

/-!
Verification of the balance-transfer engine of this repository
(`models/server.js`, `models/User.js`).

The embedding models JavaScript numbers as integers (currency minor units, as §3 of the spec mandates) extended with `NaN`
(the only non-finite value the claims depend on), the MongoDB collection as
a partial map from id strings to balances, and the two atomic store
primitives used by the transfer endpoint (`findOneAndUpdate` with a
`$gte` guard, i.e. a conditional decrement, and `findByIdAndUpdate` with
`$inc`, i.e. an increment).  Storage errors ("throws") are injected through
explicit fault flags, one per call site; concurrent activity by other
requests is injected through interference functions applied between the
engine's atomic steps.  The engine records a trace of the store operations
it attempts, which lets us count compensation attempts.
-/

/-- A JavaScript number as the transfer engine observes it: a finite
integer or `NaN`.  Every comparison involving `NaN` is false and every
arithmetic operation involving `NaN` yields `NaN`, as in JS. -/
inductive JSNum where
  | fin (q : ℤ)
  | nan
deriving DecidableEq, Repr

namespace JSNum

/-- JS `a <= b`: false whenever either side is `NaN`. -/
def le : JSNum → JSNum → Bool
  | fin a, fin b => decide (a ≤ b)
  | _, _ => false

/-- JS `a >= b`: false whenever either side is `NaN`. -/
def ge (a b : JSNum) : Bool := le b a

/-- JS addition: `NaN` absorbs. -/
def add : JSNum → JSNum → JSNum
  | fin a, fin b => fin (a + b)
  | _, _ => nan

/-- JS negation: `-NaN = NaN`. -/
def neg : JSNum → JSNum
  | fin a => fin (-a)
  | nan => nan

end JSNum

/-- The user collection: each account id maps to its stored balance. -/
def Store : Type := String → Option JSNum

/-- Overwrite one account's balance. -/
def Store.set (s : Store) (id : String) (b : JSNum) : Store :=
  fun k => if k = id then some b else s k

/-- Result of an awaited storage call: the call can reject (`thrown` — for
example a `CastError` from Mongoose's Number cast, whose
`assert.ok(!isNaN(val))` rejects a `NaN` query or update value before
anything reaches the store), return `null` (no matching document), or
return the updated document.  A thrown or null call mutates nothing. -/
inductive DbResult where
  | thrown
  | nullDoc
  | doc (s : Store) (b : JSNum)

/-- `User.findOneAndUpdate({_id, balance: {$gte: amount}}, {$inc: {balance: -amount}}, {new: true})`:
Mongoose first casts the `$gte` and `$inc` values with the Number schema
type, so a `NaN` amount makes the call throw a `CastError`; otherwise the
store atomically decrements iff the account exists and its balance is
`>= amount`, returning the post-update document, or `null` when the guard
does not match (missing account or insufficient balance), leaving the
store untouched. -/
def condDecrement (s : Store) (id : String) (a : JSNum) : DbResult :=
  match a with
  | JSNum.nan => DbResult.thrown
  | JSNum.fin _ =>
      match s id with
      | some b =>
          if JSNum.ge b a then
            let b' := JSNum.add b (JSNum.neg a)
            DbResult.doc (Store.set s id b') b'
          else DbResult.nullDoc
      | none => DbResult.nullDoc

/-- `User.findByIdAndUpdate(id, {$inc: {balance: amount}}, {new: true})`:
Mongoose casts the `$inc` value with the Number schema type, so a `NaN`
amount makes the call throw a `CastError`; otherwise the store atomically
increments, returning the post-update document, or `null` when the account
is missing, leaving the store untouched. -/
def increment (s : Store) (id : String) (a : JSNum) : DbResult :=
  match a with
  | JSNum.nan => DbResult.thrown
  | JSNum.fin _ =>
      match s id with
      | some b =>
          let b' := JSNum.add b a
          DbResult.doc (Store.set s id b') b'
      | none => DbResult.nullDoc

/-- A syntactically valid MongoDB ObjectId: 24 hex characters.  A query
whose `_id` filter fails this cast throws a `CastError` at the driver
(modelled below as the existence check throwing). -/
def validId (s : String) : Bool :=
  s.length = 24 && s.toList.all fun c =>
    c.isDigit || ('a' ≤ c && c ≤ 'f') || ('A' ≤ c && c ≤ 'F')

/-- The JSON body of a `/transfer` request.  `none` stands for a missing
field or (for `amount`) a value that is not of JS number type. -/
structure Request where
  fromUserId : Option String
  toUserId : Option String
  amount : Option JSNum

/-- Fault injection: which storage calls of this request throw (network or
write error).  One flag per call site of the endpoint. -/
structure Faults where
  /-- either `User.exists` query of the `Promise.all` rejects -/
  existsThrows : Bool
  /-- the conditional debit `findOneAndUpdate` rejects -/
  debitThrows : Bool
  /-- the credit `findByIdAndUpdate` rejects -/
  creditThrows : Bool
  /-- the refund issued after a null recipient update (server.js line 115) rejects -/
  refundAThrows : Bool
  /-- the refund issued in `catch (creditErr)` (server.js line 129) rejects -/
  refundBThrows : Bool

/-- No storage call fails. -/
def noFaults : Faults := ⟨false, false, false, false, false⟩

/-- Concurrent activity by other requests, interleaved between this
request's atomic store operations (the engine holds no lock, so any store
mutation can happen in these gaps). -/
structure Interference where
  /-- between the existence check and the conditional debit -/
  g1 : Store → Store
  /-- between the debit and the credit -/
  g2 : Store → Store
  /-- between the credit failure and the first refund attempt -/
  g3 : Store → Store
  /-- between a thrown first refund and the `catch (creditErr)` refund -/
  g4 : Store → Store

/-- An isolated run: no concurrent activity. -/
def noInterference : Interference := ⟨id, id, id, id⟩

/-- The distinct HTTP responses of `app.post('/transfer')`. -/
inductive Outcome where
  /-- 400 `'Provide fromUserId, toUserId, and amount (number)'` -/
  | badRequestMissing
  /-- 400 `'fromUserId and toUserId cannot be same'` -/
  | badRequestSame
  /-- 400 `'Amount must be > 0'` -/
  | badRequestAmount
  /-- 404 `'Sender account not found'` -/
  | senderNotFound
  /-- 404 `'Recipient account not found'` -/
  | recipientNotFound
  /-- 409 `'Insufficient balance'` -/
  | insufficientBalance
  /-- 200 `'Transfer successful'` with the two balances returned by the
  atomic updates themselves -/
  | transferSuccessful (fromBalance toBalance : JSNum)
  /-- 500 `'Recipient not found during crediting; transfer rolled back'` -/
  | rolledBack
  /-- 500 `'Credit failed; sender refunded (best-effort)'` — the
  compensated (`compensated: true`) credit-failure response -/
  | bestEffortRefunded
  /-- 500 `'Critical error: credit failed and refund failed - manual
  reconciliation required'` — the uncompensated (`compensated: false`)
  critical response -/
  | criticalError
  /-- 500 `'Server error'` from the outer `catch` -/
  | serverError
deriving DecidableEq, Repr

/-- One attempted store operation, tagged by call site. -/
inductive TraceOp where
  | qExists (id : String)
  | condDec (id : String) (a : JSNum)
  | credit (id : String) (a : JSNum)
  | refundA (id : String) (a : JSNum)
  | refundB (id : String) (a : JSNum)
deriving DecidableEq, Repr

/-- The `catch (creditErr)` block: attempt one refund of the sender; a
thrown refund (fault-injected or a cast error) yields the critical
response, while a refund that merely returns `null` (sender gone) is only
logged and still yields the best-effort (compensated) response. -/
def runRefundB (s : Store) (fid : String) (amt : JSNum) (throws : Bool) :
    Outcome × Store × List TraceOp :=
  if throws then (Outcome.criticalError, s, [TraceOp.refundB fid amt])
  else
    match increment s fid amt with
    | DbResult.thrown => (Outcome.criticalError, s, [TraceOp.refundB fid amt])
    | DbResult.doc s' _ => (Outcome.bestEffortRefunded, s', [TraceOp.refundB fid amt])
    | DbResult.nullDoc => (Outcome.bestEffortRefunded, s, [TraceOp.refundB fid amt])

/-- `app.post('/transfer')` of `models/server.js`: validation, concurrent
existence checks, conditional debit, credit, and best-effort compensation.
Returns the HTTP outcome, the final store, and the trace of attempted
store operations. -/
def transfer (s0 : Store) (req : Request) (f : Faults) (iv : Interference) :
    Outcome × Store × List TraceOp :=
  match req.fromUserId, req.toUserId, req.amount with
  | some fid, some tid, some amt =>
    if fid = "" || tid = "" then (Outcome.badRequestMissing, s0, [])
    else if fid = tid then (Outcome.badRequestSame, s0, [])
    else if JSNum.le amt (JSNum.fin 0) then (Outcome.badRequestAmount, s0, [])
    else if f.existsThrows || !validId fid || !validId tid then
      (Outcome.serverError, s0, [TraceOp.qExists fid, TraceOp.qExists tid])
    else if (s0 fid).isNone then
      (Outcome.senderNotFound, s0, [TraceOp.qExists fid, TraceOp.qExists tid])
    else if (s0 tid).isNone then
      (Outcome.recipientNotFound, s0, [TraceOp.qExists fid, TraceOp.qExists tid])
    else
      let s1 := iv.g1 s0
      let tr1 := [TraceOp.qExists fid, TraceOp.qExists tid, TraceOp.condDec fid amt]
      if f.debitThrows then (Outcome.serverError, s1, tr1)
      else
        match condDecrement s1 fid amt with
        | DbResult.thrown => (Outcome.serverError, s1, tr1)
        | DbResult.nullDoc => (Outcome.insufficientBalance, s1, tr1)
        | DbResult.doc s2 senderBal =>
          let s3 := iv.g2 s2
          let tr2 := tr1 ++ [TraceOp.credit tid amt]
          if f.creditThrows then
            let r := runRefundB (iv.g3 s3) fid amt f.refundBThrows
            (r.1, r.2.1, tr2 ++ r.2.2)
          else
            match increment s3 tid amt with
            | DbResult.thrown =>
              let r := runRefundB (iv.g3 s3) fid amt f.refundBThrows
              (r.1, r.2.1, tr2 ++ r.2.2)
            | DbResult.doc s4 recipBal =>
              (Outcome.transferSuccessful senderBal recipBal, s4, tr2)
            | DbResult.nullDoc =>
              let s4 := iv.g3 s3
              let tr3 := tr2 ++ [TraceOp.refundA fid amt]
              if f.refundAThrows then
                let r := runRefundB (iv.g4 s4) fid amt f.refundBThrows
                (r.1, r.2.1, tr3 ++ r.2.2)
              else
                match increment s4 fid amt with
                | DbResult.thrown =>
                  let r := runRefundB (iv.g4 s4) fid amt f.refundBThrows
                  (r.1, r.2.1, tr3 ++ r.2.2)
                | DbResult.doc s5 _ => (Outcome.rolledBack, s5, tr3)
                | DbResult.nullDoc => (Outcome.rolledBack, s4, tr3)
  | _, _, _ => (Outcome.badRequestMissing, s0, [])

/-- Outcome of a run. -/
def runOutcome (r : Outcome × Store × List TraceOp) : Outcome := r.1

/-- Final store of a run. -/
def runStore (r : Outcome × Store × List TraceOp) : Store := r.2.1

/-- Trace of a run. -/
def runTrace (r : Outcome × Store × List TraceOp) : List TraceOp := r.2.2

/-- Result of `app.post('/users')`: the 400 input rejection, the 500
produced when `user.save()` rejects, or the 201 with the updated
collection. -/
inductive CreateResult where
  | badRequest
  | saveError
  | created (s : Store)

/-- `app.post('/users')`: the endpoint itself only checks that `name` is
truthy and `balance` is of JS number type (400 otherwise); `user.save()`
then runs Mongoose's Number cast on the balance, which rejects `NaN`
(`assert.ok(!isNaN(val))`) — the save rejects, the endpoint answers 500
and nothing is stored.  Any finite balance, negative included, is stored
as-is. -/
def createUser (s : Store) (name : Option String) (balance : Option JSNum)
    (newId : String) : CreateResult :=
  match name, balance with
  | some n, some b =>
      if n = "" then CreateResult.badRequest
      else
        match b with
        | JSNum.nan => CreateResult.saveError
        | JSNum.fin q => CreateResult.created (Store.set s newId (JSNum.fin q))
  | _, _ => CreateResult.badRequest

/-- The three 400 responses (`InvalidRequest`). -/
def isInvalidRequest : Outcome → Bool
  | Outcome.badRequestMissing => true
  | Outcome.badRequestSame => true
  | Outcome.badRequestAmount => true
  | _ => false

/-- The two 404 responses (`AccountNotFound`). -/
def isNotFound : Outcome → Bool
  | Outcome.senderNotFound => true
  | Outcome.recipientNotFound => true
  | _ => false

/-- A rejection: `InvalidRequest`, `AccountNotFound`, or
`Rejected{InsufficientFunds}`. -/
def isRejection (o : Outcome) : Bool :=
  isInvalidRequest o || isNotFound o || o = Outcome.insufficientBalance

/-- The outcomes of a transfer whose credit step failed. -/
def isCreditFailure : Outcome → Bool
  | Outcome.rolledBack => true
  | Outcome.bestEffortRefunded => true
  | Outcome.criticalError => true
  | _ => false

/-- Whether a trace operation is a compensating increment of the sender. -/
def isRefundOp : TraceOp → Bool
  | TraceOp.refundA _ _ => true
  | TraceOp.refundB _ _ => true
  | _ => false

/-- Whether a trace operation is the `catch (creditErr)` refund. -/
def isRefundBOp : TraceOp → Bool
  | TraceOp.refundB _ _ => true
  | _ => false

/-- Number of compensating increments attempted in a trace. -/
def refundCount (tr : List TraceOp) : Nat := tr.countP isRefundOp

/-- Whether the request body fails the endpoint's input validation:
a falsy id, a non-number amount, equal ids, or `amount <= 0`. -/
def reqMalformed (req : Request) : Bool :=
  match req.fromUserId, req.toUserId, req.amount with
  | some fid, some tid, some amt =>
      fid = "" || tid = "" || fid = tid || JSNum.le amt (JSNum.fin 0)
  | _, _, _ => true

/-- Apply one store operation (as the store executes it): existence
queries have no effect; a conditional decrement applies only when its
guard matches; increments apply when the account exists. -/
def applyTraceOp (s : Store) : TraceOp → Store
  | TraceOp.qExists _ => s
  | TraceOp.condDec id a =>
      match condDecrement s id a with
      | DbResult.doc s' _ => s'
      | _ => s
  | TraceOp.credit id a =>
      match increment s id a with
      | DbResult.doc s' _ => s'
      | _ => s
  | TraceOp.refundA id a =>
      match increment s id a with
      | DbResult.doc s' _ => s'
      | _ => s
  | TraceOp.refundB id a =>
      match increment s id a with
      | DbResult.doc s' _ => s'
      | _ => s

/-- Apply a sequence of store operations in order: an arbitrary
interleaving, at per-account atomic-update granularity, of the operations
of any number of transfers. -/
def applyTrace (s : Store) (l : List TraceOp) : Store := l.foldl applyTraceOp s

/-- Every increment-type operation (credit or refund) carries a finite
strictly positive amount; operations of other kinds are unconstrained. -/
def incOpPos : TraceOp → Bool
  | TraceOp.credit _ a =>
      match a with | JSNum.fin q => decide (0 < q) | JSNum.nan => false
  | TraceOp.refundA _ a =>
      match a with | JSNum.fin q => decide (0 < q) | JSNum.nan => false
  | TraceOp.refundB _ a =>
      match a with | JSNum.fin q => decide (0 < q) | JSNum.nan => false
  | _ => true

/-! ### Concrete fixtures for witnesses and counterexamples -/

/-- A syntactically valid account id. -/
def idA : String := "aaaaaaaaaaaaaaaaaaaaaaaa"

/-- A second syntactically valid account id. -/
def idB : String := "bbbbbbbbbbbbbbbbbbbbbbbb"

/-- A store holding two accounts: `idA ↦ 1000`, `idB ↦ 500`. -/
def storeW : Store := fun k =>
  if k = idA then some (JSNum.fin 1000)
  else if k = idB then some (JSNum.fin 500)
  else none

/-- Transfer 200 from `idA` to `idB`. -/
def reqW : Request := ⟨some idA, some idB, some (JSNum.fin 200)⟩

/-- Transfer 2000 from `idA` to `idB` (more than the balance). -/
def reqOver : Request := ⟨some idA, some idB, some (JSNum.fin 2000)⟩

/-- Transfer `NaN` from `idA` to `idB`. -/
def reqNaN : Request := ⟨some idA, some idB, some JSNum.nan⟩

/-- A request whose sender id is truthy but not a valid ObjectId. -/
def reqBadId : Request := ⟨some "abc", some idB, some (JSNum.fin 10)⟩

/-- A request naming the same account on both sides. -/
def reqSame : Request := ⟨some idA, some idA, some (JSNum.fin 5)⟩

/-- Only the credit call throws. -/
def faultsCredit : Faults := ⟨false, false, true, false, false⟩

/-- Only the line-115 refund throws. -/
def faultsRefundA : Faults := ⟨false, false, false, true, false⟩

/-- Only the existence check throws. -/
def faultsExists : Faults := ⟨true, false, false, false, false⟩

/-- A concurrent request deletes the recipient `idB` between the debit and
the credit. -/
def ivDelRecipient : Interference :=
  ⟨id, fun s k => if k = idB then none else s k, id, id⟩

/-- A concurrent request deletes the sender `idA` between the credit
failure and the refund. -/
def ivDelSender : Interference :=
  ⟨id, id, fun s k => if k = idA then none else s k, id⟩

/-! ### Support lemmas: inversion of the store primitives and run shapes -/

/-- The trace of a run that stopped at the existence check. -/
def traceQ (fid tid : String) : List TraceOp :=
  [TraceOp.qExists fid, TraceOp.qExists tid]

/-- The trace of a run that stopped at the conditional debit. -/
def traceD (fid tid : String) (amt : JSNum) : List TraceOp :=
  [TraceOp.qExists fid, TraceOp.qExists tid, TraceOp.condDec fid amt]

/-- The trace of a run that reached the credit. -/
def traceC (fid tid : String) (amt : JSNum) : List TraceOp :=
  traceD fid tid amt ++ [TraceOp.credit tid amt]

/-- The trace of a run that reached the line-115 refund. -/
def traceR (fid tid : String) (amt : JSNum) : List TraceOp :=
  traceC fid tid amt ++ [TraceOp.refundA fid amt]

/-- The request body passed the endpoint's input validation. -/
def passesValidation (fid tid : String) (amt : JSNum) : Prop :=
  fid ≠ "" ∧ tid ≠ "" ∧ fid ≠ tid ∧ JSNum.le amt (JSNum.fin 0) = false

/-- The existence pre-check neither throws nor trips the ObjectId cast. -/
def passesExistence (f : Faults) (fid tid : String) : Prop :=
  f.existsThrows = false ∧ validId fid = true ∧ validId tid = true

lemma condDecrement_doc_of {s : Store} {id : String} {a b : JSNum}
    (hid : s id = some b) (hge : JSNum.ge b a = true) :
    condDecrement s id a =
      DbResult.doc (Store.set s id (JSNum.add b (JSNum.neg a)))
        (JSNum.add b (JSNum.neg a)) := by
  cases a with
  | nan => cases b <;> simp [JSNum.ge, JSNum.le] at hge
  | fin qa => simp [condDecrement, hid, hge]

lemma condDecrement_eq_thrown {s : Store} {id : String} {a : JSNum}
    (h : condDecrement s id a = DbResult.thrown) : a = JSNum.nan := by
  cases a with
  | nan => rfl
  | fin qa =>
      obtain hid | ⟨b, hid⟩ := Option.eq_none_or_eq_some (s id)
      · simp [condDecrement, hid] at h
      · by_cases hge : JSNum.ge b (JSNum.fin qa) = true <;>
          simp [condDecrement, hid, hge] at h

lemma condDecrement_eq_doc {s : Store} {id : String} {a : JSNum}
    {s' : Store} {b' : JSNum} (h : condDecrement s id a = DbResult.doc s' b') :
    ∃ b, s id = some b ∧ JSNum.ge b a = true ∧
      b' = JSNum.add b (JSNum.neg a) ∧ s' = Store.set s id b' := by
  cases a with
  | nan => simp [condDecrement] at h
  | fin qa =>
      obtain hid | ⟨b, hid⟩ := Option.eq_none_or_eq_some (s id)
      · simp [condDecrement, hid] at h
      · by_cases hge : JSNum.ge b (JSNum.fin qa) = true
        · rw [condDecrement_doc_of hid hge] at h
          simp only [DbResult.doc.injEq] at h
          obtain ⟨hs, hb⟩ := h
          subst hb; subst hs
          exact ⟨b, hid, hge, rfl, rfl⟩
        · simp [condDecrement, hid, hge] at h

lemma condDecrement_eq_null {s : Store} {id : String} {a : JSNum}
    (h : condDecrement s id a = DbResult.nullDoc) :
    s id = none ∨ ∃ b, s id = some b ∧ JSNum.ge b a = false := by
  cases a with
  | nan => simp [condDecrement] at h
  | fin qa =>
      obtain hid | ⟨b, hid⟩ := Option.eq_none_or_eq_some (s id)
      · exact Or.inl hid
      · by_cases hge : JSNum.ge b (JSNum.fin qa) = true
        · rw [condDecrement_doc_of hid hge] at h
          exact absurd h (by simp)
        · exact Or.inr ⟨b, hid, by simpa using hge⟩

lemma increment_doc_of {s : Store} {id : String} {b : JSNum} {qa : ℤ}
    (hid : s id = some b) :
    increment s id (JSNum.fin qa) =
      DbResult.doc (Store.set s id (JSNum.add b (JSNum.fin qa)))
        (JSNum.add b (JSNum.fin qa)) := by
  simp [increment, hid]

lemma increment_eq_thrown {s : Store} {id : String} {a : JSNum}
    (h : increment s id a = DbResult.thrown) : a = JSNum.nan := by
  cases a with
  | nan => rfl
  | fin qa =>
      obtain hid | ⟨b, hid⟩ := Option.eq_none_or_eq_some (s id) <;>
        simp [increment, hid] at h

lemma increment_eq_doc {s : Store} {id : String} {a : JSNum}
    {s' : Store} {b' : JSNum} (h : increment s id a = DbResult.doc s' b') :
    ∃ b, s id = some b ∧ b' = JSNum.add b a ∧ s' = Store.set s id b' := by
  cases a with
  | nan => simp [increment] at h
  | fin qa =>
      obtain hid | ⟨b, hid⟩ := Option.eq_none_or_eq_some (s id)
      · simp [increment, hid] at h
      · rw [increment_doc_of hid] at h
        simp only [DbResult.doc.injEq] at h
        obtain ⟨hs, hb⟩ := h
        subst hb; subst hs
        exact ⟨b, hid, rfl, rfl⟩

lemma increment_eq_null {s : Store} {id : String} {a : JSNum}
    (h : increment s id a = DbResult.nullDoc) : s id = none := by
  cases a with
  | nan => simp [increment] at h
  | fin qa =>
      obtain hid | ⟨b, hid⟩ := Option.eq_none_or_eq_some (s id)
      · exact hid
      · rw [increment_doc_of hid] at h
        exact absurd h (by simp)

lemma dbResult_cases (r : DbResult) :
    r = DbResult.thrown ∨ r = DbResult.nullDoc ∨ ∃ s b, r = DbResult.doc s b := by
  cases r with
  | thrown => exact Or.inl rfl
  | nullDoc => exact Or.inr (Or.inl rfl)
  | doc s b => exact Or.inr (Or.inr ⟨s, b, rfl⟩)

lemma JSNum.ge_eq_true {a b : JSNum} (h : JSNum.ge a b = true) :
    ∃ p q, a = JSNum.fin p ∧ b = JSNum.fin q ∧ q ≤ p := by
  cases a with
  | fin p =>
      cases b with
      | fin q => exact ⟨p, q, rfl, rfl, by simpa [JSNum.ge, JSNum.le] using h⟩
      | nan => simp [JSNum.ge, JSNum.le] at h
  | nan => cases b <;> simp [JSNum.ge, JSNum.le] at h

lemma JSNum.le_fin_zero_false {a : JSNum} (h : JSNum.le a (JSNum.fin 0) = false) :
    a = JSNum.nan ∨ ∃ q : ℤ, a = JSNum.fin q ∧ 0 < q := by
  cases a with
  | fin q =>
      refine Or.inr ⟨q, rfl, ?_⟩
      have : ¬ (q ≤ 0) := by simpa [JSNum.le] using h
      omega
  | nan => exact Or.inl rfl

/-- Shape of the `catch (creditErr)` block's result: the injected throw
gives the critical response; otherwise the refund call either applies,
returns `null` (both answered best-effort), or itself throws the Number
cast error (`NaN` amount — answered critical, like any thrown refund). -/
lemma runRefundB_cases (s : Store) (fid : String) (amt : JSNum) (th : Bool) :
    (th = true ∧ runRefundB s fid amt th = (Outcome.criticalError, s, [TraceOp.refundB fid amt]))
  ∨ (th = false ∧ ∃ s' b, increment s fid amt = DbResult.doc s' b ∧
      runRefundB s fid amt th = (Outcome.bestEffortRefunded, s', [TraceOp.refundB fid amt]))
  ∨ (th = false ∧ increment s fid amt = DbResult.nullDoc ∧
      runRefundB s fid amt th = (Outcome.bestEffortRefunded, s, [TraceOp.refundB fid amt]))
  ∨ (th = false ∧ amt = JSNum.nan ∧
      runRefundB s fid amt th = (Outcome.criticalError, s, [TraceOp.refundB fid amt])) := by
  cases th with
  | true => exact Or.inl ⟨rfl, by simp [runRefundB]⟩
  | false =>
      obtain hinc | hinc | ⟨s', b, hinc⟩ := dbResult_cases (increment s fid amt)
      · exact Or.inr (Or.inr (Or.inr ⟨rfl, increment_eq_thrown hinc,
          by simp [runRefundB, hinc]⟩))
      · exact Or.inr (Or.inr (Or.inl ⟨rfl, hinc, by simp [runRefundB, hinc]⟩))
      · exact Or.inr (Or.inl ⟨rfl, s', b, hinc, by simp [runRefundB, hinc]⟩)

/-- Exhaustive case analysis of a `/transfer` run whose request body has
all three fields present: exactly one of the thirteen control-flow paths
of the endpoint is taken, and on each path the outcome, final store and
operation trace are as listed. -/
lemma transfer_run_cases (s0 : Store) (fid tid : String) (amt : JSNum)
    (f : Faults) (iv : Interference) :
    ((fid = "" ∨ tid = "") ∧
      transfer s0 ⟨some fid, some tid, some amt⟩ f iv = (Outcome.badRequestMissing, s0, []))
  ∨ (fid ≠ "" ∧ tid ≠ "" ∧ fid = tid ∧
      transfer s0 ⟨some fid, some tid, some amt⟩ f iv = (Outcome.badRequestSame, s0, []))
  ∨ (fid ≠ "" ∧ tid ≠ "" ∧ fid ≠ tid ∧ JSNum.le amt (JSNum.fin 0) = true ∧
      transfer s0 ⟨some fid, some tid, some amt⟩ f iv = (Outcome.badRequestAmount, s0, []))
  ∨ (passesValidation fid tid amt ∧
      (f.existsThrows = true ∨ validId fid = false ∨ validId tid = false) ∧
      transfer s0 ⟨some fid, some tid, some amt⟩ f iv = (Outcome.serverError, s0, traceQ fid tid))
  ∨ (passesValidation fid tid amt ∧ passesExistence f fid tid ∧ s0 fid = none ∧
      transfer s0 ⟨some fid, some tid, some amt⟩ f iv = (Outcome.senderNotFound, s0, traceQ fid tid))
  ∨ (passesValidation fid tid amt ∧ passesExistence f fid tid ∧
      (∃ b, s0 fid = some b) ∧ s0 tid = none ∧
      transfer s0 ⟨some fid, some tid, some amt⟩ f iv = (Outcome.recipientNotFound, s0, traceQ fid tid))
  ∨ (passesValidation fid tid amt ∧ passesExistence f fid tid ∧
      (∃ b, s0 fid = some b) ∧ (∃ b, s0 tid = some b) ∧ f.debitThrows = true ∧
      transfer s0 ⟨some fid, some tid, some amt⟩ f iv = (Outcome.serverError, iv.g1 s0, traceD fid tid amt))
  ∨ (passesValidation fid tid amt ∧ passesExistence f fid tid ∧
      (∃ b, s0 fid = some b) ∧ (∃ b, s0 tid = some b) ∧ f.debitThrows = false ∧
      condDecrement (iv.g1 s0) fid amt = DbResult.nullDoc ∧
      transfer s0 ⟨some fid, some tid, some amt⟩ f iv =
        (Outcome.insufficientBalance, iv.g1 s0, traceD fid tid amt))
  ∨ (passesValidation fid tid amt ∧ passesExistence f fid tid ∧
      (∃ b, s0 fid = some b) ∧ (∃ b, s0 tid = some b) ∧ f.debitThrows = false ∧
      condDecrement (iv.g1 s0) fid amt = DbResult.thrown ∧
      transfer s0 ⟨some fid, some tid, some amt⟩ f iv =
        (Outcome.serverError, iv.g1 s0, traceD fid tid amt))
  ∨ (∃ s2 sb, passesValidation fid tid amt ∧ passesExistence f fid tid ∧
      (∃ b, s0 fid = some b) ∧ (∃ b, s0 tid = some b) ∧
      f.debitThrows = false ∧ condDecrement (iv.g1 s0) fid amt = DbResult.doc s2 sb ∧
      f.creditThrows = true ∧
      ∃ o2 sB trB, runRefundB (iv.g3 (iv.g2 s2)) fid amt f.refundBThrows = (o2, sB, trB) ∧
        transfer s0 ⟨some fid, some tid, some amt⟩ f iv = (o2, sB, traceC fid tid amt ++ trB))
  ∨ (∃ s2 sb s4 rb, passesValidation fid tid amt ∧ passesExistence f fid tid ∧
      (∃ b, s0 fid = some b) ∧ (∃ b, s0 tid = some b) ∧
      f.debitThrows = false ∧ condDecrement (iv.g1 s0) fid amt = DbResult.doc s2 sb ∧
      f.creditThrows = false ∧ increment (iv.g2 s2) tid amt = DbResult.doc s4 rb ∧
      transfer s0 ⟨some fid, some tid, some amt⟩ f iv =
        (Outcome.transferSuccessful sb rb, s4, traceC fid tid amt))
  ∨ (∃ s2 sb, passesValidation fid tid amt ∧ passesExistence f fid tid ∧
      (∃ b, s0 fid = some b) ∧ (∃ b, s0 tid = some b) ∧
      f.debitThrows = false ∧ condDecrement (iv.g1 s0) fid amt = DbResult.doc s2 sb ∧
      f.creditThrows = false ∧ increment (iv.g2 s2) tid amt = DbResult.nullDoc ∧
      f.refundAThrows = true ∧
      ∃ o2 sB trB, runRefundB (iv.g4 (iv.g3 (iv.g2 s2))) fid amt f.refundBThrows = (o2, sB, trB) ∧
        transfer s0 ⟨some fid, some tid, some amt⟩ f iv = (o2, sB, traceR fid tid amt ++ trB))
  ∨ (∃ s2 sb s5 x, passesValidation fid tid amt ∧ passesExistence f fid tid ∧
      (∃ b, s0 fid = some b) ∧ (∃ b, s0 tid = some b) ∧
      f.debitThrows = false ∧ condDecrement (iv.g1 s0) fid amt = DbResult.doc s2 sb ∧
      f.creditThrows = false ∧ increment (iv.g2 s2) tid amt = DbResult.nullDoc ∧
      f.refundAThrows = false ∧ increment (iv.g3 (iv.g2 s2)) fid amt = DbResult.doc s5 x ∧
      transfer s0 ⟨some fid, some tid, some amt⟩ f iv = (Outcome.rolledBack, s5, traceR fid tid amt))
  ∨ (∃ s2 sb, passesValidation fid tid amt ∧ passesExistence f fid tid ∧
      (∃ b, s0 fid = some b) ∧ (∃ b, s0 tid = some b) ∧
      f.debitThrows = false ∧ condDecrement (iv.g1 s0) fid amt = DbResult.doc s2 sb ∧
      f.creditThrows = false ∧ increment (iv.g2 s2) tid amt = DbResult.nullDoc ∧
      f.refundAThrows = false ∧ increment (iv.g3 (iv.g2 s2)) fid amt = DbResult.nullDoc ∧
      transfer s0 ⟨some fid, some tid, some amt⟩ f iv =
        (Outcome.rolledBack, iv.g3 (iv.g2 s2), traceR fid tid amt)) := by
  by_cases h1 : fid = ""
  · exact Or.inl ⟨Or.inl h1, by simp [transfer, h1]⟩
  by_cases h2 : tid = ""
  · exact Or.inl ⟨Or.inr h2, by simp [transfer, h1, h2]⟩
  by_cases h3 : fid = tid
  · exact Or.inr (Or.inl ⟨h1, h2, h3, by simp [transfer, h1, h2, h3]⟩)
  cases hle : JSNum.le amt (JSNum.fin 0) with
  | true =>
      exact Or.inr (Or.inr (Or.inl ⟨h1, h2, h3, rfl, by simp [transfer, h1, h2, h3, hle]⟩))
  | false =>
  have hpV : passesValidation fid tid amt := ⟨h1, h2, h3, hle⟩
  cases hEx : (f.existsThrows || !validId fid || !validId tid) with
  | true =>
      refine Or.inr (Or.inr (Or.inr (Or.inl ⟨hpV, ?_, ?_⟩)))
      · simpa [Bool.or_eq_true, Bool.not_eq_true', or_assoc] using hEx
      · simp [transfer, h1, h2, h3, hle, hEx, traceQ]
  | false =>
  have hpE : passesExistence f fid tid := by
    have := hEx
    simp only [Bool.or_eq_false_iff, Bool.not_eq_false'] at this
    exact ⟨this.1.1, this.1.2, this.2⟩
  obtain hsf | ⟨bf, hsf⟩ := Option.eq_none_or_eq_some (s0 fid)
  · refine Or.inr (Or.inr (Or.inr (Or.inr (Or.inl ⟨hpV, hpE, hsf, ?_⟩))))
    simp [transfer, h1, h2, h3, hle, hEx, hsf, traceQ]
  obtain hst | ⟨bt, hst⟩ := Option.eq_none_or_eq_some (s0 tid)
  · refine Or.inr (Or.inr (Or.inr (Or.inr (Or.inr (Or.inl ⟨hpV, hpE, ⟨bf, hsf⟩, hst, ?_⟩)))))
    simp [transfer, h1, h2, h3, hle, hEx, hsf, hst, traceQ]
  cases hD : f.debitThrows with
  | true =>
      refine Or.inr (Or.inr (Or.inr (Or.inr (Or.inr (Or.inr (Or.inl
        ⟨hpV, hpE, ⟨bf, hsf⟩, ⟨bt, hst⟩, rfl, ?_⟩))))))
      simp [transfer, h1, h2, h3, hle, hEx, hsf, hst, hD, traceD]
  | false =>
  obtain hdec | hdec | ⟨s2, sb, hdec⟩ := dbResult_cases (condDecrement (iv.g1 s0) fid amt)
  · refine Or.inr (Or.inr (Or.inr (Or.inr (Or.inr (Or.inr (Or.inr (Or.inr (Or.inl
      ⟨hpV, hpE, ⟨bf, hsf⟩, ⟨bt, hst⟩, rfl, hdec, ?_⟩))))))))
    simp [transfer, h1, h2, h3, hle, hEx, hsf, hst, hD, hdec, traceD]
  · refine Or.inr (Or.inr (Or.inr (Or.inr (Or.inr (Or.inr (Or.inr (Or.inl
      ⟨hpV, hpE, ⟨bf, hsf⟩, ⟨bt, hst⟩, rfl, hdec, ?_⟩)))))))
    simp [transfer, h1, h2, h3, hle, hEx, hsf, hst, hD, hdec, traceD]
  cases hC : f.creditThrows with
  | true =>
      have hT : transfer s0 ⟨some fid, some tid, some amt⟩ f iv =
          ((runRefundB (iv.g3 (iv.g2 s2)) fid amt f.refundBThrows).1,
           (runRefundB (iv.g3 (iv.g2 s2)) fid amt f.refundBThrows).2.1,
           traceC fid tid amt ++ (runRefundB (iv.g3 (iv.g2 s2)) fid amt f.refundBThrows).2.2) := by
        simp [transfer, h1, h2, h3, hle, hEx, hsf, hst, hD, hdec, hC, traceC, traceD]
      exact Or.inr (Or.inr (Or.inr (Or.inr (Or.inr (Or.inr (Or.inr (Or.inr (Or.inr (Or.inl
        ⟨s2, sb, hpV, hpE, ⟨bf, hsf⟩, ⟨bt, hst⟩, rfl, hdec, rfl, _, _, _, rfl, hT⟩)))))))))
  | false =>
  obtain hinc | hinc | ⟨s4, rb, hinc⟩ := dbResult_cases (increment (iv.g2 s2) tid amt)
  · obtain rfl := increment_eq_thrown hinc
    simp [condDecrement] at hdec
  · cases hA : f.refundAThrows with
    | true =>
        have hT : transfer s0 ⟨some fid, some tid, some amt⟩ f iv =
            ((runRefundB (iv.g4 (iv.g3 (iv.g2 s2))) fid amt f.refundBThrows).1,
             (runRefundB (iv.g4 (iv.g3 (iv.g2 s2))) fid amt f.refundBThrows).2.1,
             traceR fid tid amt ++
               (runRefundB (iv.g4 (iv.g3 (iv.g2 s2))) fid amt f.refundBThrows).2.2) := by
          simp [transfer, h1, h2, h3, hle, hEx, hsf, hst, hD, hdec, hC, hinc, hA,
            traceR, traceC, traceD]
        exact Or.inr (Or.inr (Or.inr (Or.inr (Or.inr (Or.inr (Or.inr (Or.inr (Or.inr (Or.inr (Or.inr (Or.inl
          ⟨s2, sb, hpV, hpE, ⟨bf, hsf⟩, ⟨bt, hst⟩, rfl, hdec, rfl, hinc, rfl, _, _, _, rfl, hT⟩)))))))))))
    | false =>
        obtain hinc3 | hinc3 | ⟨s5, x, hinc3⟩ :=
          dbResult_cases (increment (iv.g3 (iv.g2 s2)) fid amt)
        · obtain rfl := increment_eq_thrown hinc3
          simp [condDecrement] at hdec
        · refine Or.inr (Or.inr (Or.inr (Or.inr (Or.inr (Or.inr (Or.inr (Or.inr (Or.inr (Or.inr
            (Or.inr (Or.inr (Or.inr ⟨s2, sb, hpV, hpE, ⟨bf, hsf⟩, ⟨bt, hst⟩, rfl, hdec, rfl, hinc, rfl, hinc3, ?_⟩))))))))))))
          simp [transfer, h1, h2, h3, hle, hEx, hsf, hst, hD, hdec, hC, hinc, hA, hinc3,
            traceR, traceC, traceD]
        · refine Or.inr (Or.inr (Or.inr (Or.inr (Or.inr (Or.inr (Or.inr (Or.inr (Or.inr (Or.inr
            (Or.inr (Or.inr (Or.inl ⟨s2, sb, s5, x, hpV, hpE, ⟨bf, hsf⟩, ⟨bt, hst⟩, rfl, hdec, rfl, hinc, rfl, hinc3, ?_⟩))))))))))))
          simp [transfer, h1, h2, h3, hle, hEx, hsf, hst, hD, hdec, hC, hinc, hA, hinc3,
            traceR, traceC, traceD]
  · refine Or.inr (Or.inr (Or.inr (Or.inr (Or.inr (Or.inr (Or.inr (Or.inr (Or.inr (Or.inr (Or.inl
      ⟨s2, sb, s4, rb, hpV, hpE, ⟨bf, hsf⟩, ⟨bt, hst⟩, rfl, hdec, rfl, hinc, ?_⟩))))))))))
    simp [transfer, h1, h2, h3, hle, hEx, hsf, hst, hD, hdec, hC, hinc, traceC, traceD]

lemma triple_eq {α β γ : Type _} {a o : α} {b s : β} {c t : γ}
    (h : (a, b, c) = (o, s, t)) : o = a ∧ s = b ∧ t = c := by
  simp only [Prod.ext_iff] at h
  exact ⟨h.1.symm, h.2.1.symm, h.2.2.symm⟩

lemma runRefundB_outcome {s : Store} {fid : String} {amt : JSNum} {th : Bool}
    {o : Outcome} {sB : Store} {trB : List TraceOp}
    (h : runRefundB s fid amt th = (o, sB, trB)) :
    o = Outcome.criticalError ∨ o = Outcome.bestEffortRefunded := by
  rcases runRefundB_cases s fid amt th with
    ⟨_, h2⟩ | ⟨_, s', b, _, h2⟩ | ⟨_, _, h2⟩ | ⟨_, _, h2⟩ <;>
  · obtain ⟨ho, _, _⟩ := triple_eq (h2.symm.trans h)
    simp [ho]

/-- C1: every rejected transfer — `InvalidRequest` (400), `AccountNotFound`
(404), or `Rejected{InsufficientFunds}` (409), including a failed
conditional debit — performs no store mutation: on the 400/404 paths the
final store is exactly the initial one, and on the 409 path it is exactly
the store as the concurrent environment left it before the debit, with no
contribution from this request (in an isolated run, exactly the initial
store). -/
theorem C1_zero_effect_rejection (s0 : Store) (req : Request) (f : Faults)
    (iv : Interference) (o : Outcome) (s' : Store) (tr : List TraceOp)
    (hrun : transfer s0 req f iv = (o, s', tr)) :
    ((isInvalidRequest o || isNotFound o) = true → s' = s0) ∧
    (o = Outcome.insufficientBalance → s' = iv.g1 s0) := by
  obtain ⟨ofid, otid, oamt⟩ := req
  rcases ofid with _ | fid <;> rcases otid with _ | tid <;> rcases oamt with _ | amt
  all_goals try
    (simp only [transfer] at hrun
     obtain ⟨rfl, rfl, rfl⟩ := triple_eq hrun
     simp [isInvalidRequest, isNotFound]
     done)
  rcases transfer_run_cases s0 fid tid amt f iv with
    ⟨hc, hT⟩ | ⟨h1, h2, h3, hT⟩ | ⟨h1, h2, h3, h4, hT⟩ | ⟨hpV, hc, hT⟩ |
    ⟨hpV, hpE, hsf, hT⟩ | ⟨hpV, hpE, hbf, hst, hT⟩ | ⟨hpV, hpE, hbf, hbt, hD, hT⟩ |
    ⟨hpV, hpE, hbf, hbt, hD, hdec, hT⟩ |
    ⟨hpV, hpE, hbf, hbt, hD, hdecT, hT⟩ |
    ⟨s2, sb, hpV, hpE, hexf, hext, hD, hdec, hC, o2, sB, trB, hR, hT⟩ |
    ⟨s2, sb, s4, rb, hpV, hpE, hexf, hext, hD, hdec, hC, hinc, hT⟩ |
    ⟨s2, sb, hpV, hpE, hexf, hext, hD, hdec, hC, hinc, hA, o2, sB, trB, hR, hT⟩ |
    ⟨s2, sb, s5, x, hpV, hpE, hexf, hext, hD, hdec, hC, hinc, hA, hinc3, hT⟩ |
    ⟨s2, sb, hpV, hpE, hexf, hext, hD, hdec, hC, hinc, hA, hinc3, hT⟩ <;>
    obtain ⟨rfl, rfl, rfl⟩ := triple_eq (hT.symm.trans hrun) <;>
    first
      | (simp [isInvalidRequest, isNotFound]
         done)
      | (rcases runRefundB_outcome hR with rfl | rfl <;> simp [isInvalidRequest, isNotFound])

/-- Witness for C1: a concrete over-balance transfer is rejected with 409
and leaves the store untouched. -/
theorem C1_zero_effect_rejection_witness :
    runStore (transfer storeW reqOver noFaults noInterference) = storeW := by
  have h := C1_zero_effect_rejection storeW reqOver noFaults noInterference
    (runOutcome (transfer storeW reqOver noFaults noInterference))
    (runStore (transfer storeW reqOver noFaults noInterference))
    (runTrace (transfer storeW reqOver noFaults noInterference)) rfl
  exact h.2 (by decide)

lemma runRefundB_trace (s : Store) (fid : String) (amt : JSNum) (th : Bool) :
    (runRefundB s fid amt th).2.2 = [TraceOp.refundB fid amt] := by
  rcases runRefundB_cases s fid amt th with
    ⟨_, h2⟩ | ⟨_, s', b, _, h2⟩ | ⟨_, _, h2⟩ | ⟨_, _, h2⟩ <;> simp [h2]

lemma amt_pos_of_debit {amt b : JSNum} (hle : JSNum.le amt (JSNum.fin 0) = false)
    (hge : JSNum.ge b amt = true) : ∃ qa : ℤ, amt = JSNum.fin qa ∧ 0 < qa := by
  obtain ⟨p, qa, hbp, hamt, hle2⟩ := JSNum.ge_eq_true hge
  refine ⟨qa, hamt, ?_⟩
  subst hamt
  have : ¬ (qa ≤ 0) := by simpa [JSNum.le] using hle
  omega

lemma incStep_nonneg {s : Store} {id id2 : String} {q qa : ℤ}
    (hid : s id = some (JSNum.fin q)) (hq : 0 ≤ q) (hqa : 0 < qa) :
    ∃ q2, (match increment s id2 (JSNum.fin qa) with
            | DbResult.doc s' _ => s'
            | _ => s) id = some (JSNum.fin q2) ∧ 0 ≤ q2 := by
  obtain hinc | hinc | ⟨s1, b', hinc⟩ := dbResult_cases (increment s id2 (JSNum.fin qa))
  · exact absurd (increment_eq_thrown hinc) (by simp)
  · exact ⟨q, by simpa [hinc] using hid, hq⟩
  · obtain ⟨b, hb, hb', hs1⟩ := increment_eq_doc hinc
    subst hb'
    subst hs1
    by_cases hi : id = id2
    · subst hi
      rw [hid] at hb
      obtain rfl : b = JSNum.fin q := by simpa using hb.symm
      exact ⟨q + qa, by simp [hinc, Store.set, JSNum.add], by omega⟩
    · exact ⟨q, by simp [hinc, Store.set, hi, hid], hq⟩

lemma applyTraceOp_nonneg {s : Store} {id : String} {q : ℤ} (op : TraceOp)
    (hpos : incOpPos op = true) (hid : s id = some (JSNum.fin q)) (hq : 0 ≤ q) :
    ∃ q2, applyTraceOp s op id = some (JSNum.fin q2) ∧ 0 ≤ q2 := by
  cases op with
  | qExists x => exact ⟨q, hid, hq⟩
  | condDec id2 a =>
      obtain hdec | hdec | ⟨s1, b', hdec⟩ := dbResult_cases (condDecrement s id2 a)
      · exact ⟨q, by simpa [applyTraceOp, hdec] using hid, hq⟩
      · exact ⟨q, by simpa [applyTraceOp, hdec] using hid, hq⟩
      · obtain ⟨b, hb, hge, hb', hs1⟩ := condDecrement_eq_doc hdec
        obtain ⟨p, qa, hbp, ha, hle2⟩ := JSNum.ge_eq_true hge
        subst ha
        subst hbp
        subst hb'
        subst hs1
        by_cases hi : id = id2
        · subst hi
          rw [hid] at hb
          obtain rfl : p = q := by simpa using hb.symm
          refine ⟨p - qa, ?_, by omega⟩
          simp [applyTraceOp, hdec, Store.set, JSNum.add, JSNum.neg, sub_eq_add_neg]
        · exact ⟨q, by simp [applyTraceOp, hdec, Store.set, hi, hid], hq⟩
  | credit id2 a =>
      obtain ⟨qa, ha, hqa⟩ : ∃ qa, a = JSNum.fin qa ∧ 0 < qa := by
        cases a with
        | fin qa => exact ⟨qa, rfl, by simpa [incOpPos] using hpos⟩
        | nan => simp [incOpPos] at hpos
      subst ha
      exact incStep_nonneg hid hq hqa
  | refundA id2 a =>
      obtain ⟨qa, ha, hqa⟩ : ∃ qa, a = JSNum.fin qa ∧ 0 < qa := by
        cases a with
        | fin qa => exact ⟨qa, rfl, by simpa [incOpPos] using hpos⟩
        | nan => simp [incOpPos] at hpos
      subst ha
      exact incStep_nonneg hid hq hqa
  | refundB id2 a =>
      obtain ⟨qa, ha, hqa⟩ : ∃ qa, a = JSNum.fin qa ∧ 0 < qa := by
        cases a with
        | fin qa => exact ⟨qa, rfl, by simpa [incOpPos] using hpos⟩
        | nan => simp [incOpPos] at hpos
      subst ha
      exact incStep_nonneg hid hq hqa

lemma applyTrace_nonneg : ∀ (l : List TraceOp) (s : Store) (id : String) (q : ℤ),
    (∀ op ∈ l, incOpPos op = true) → s id = some (JSNum.fin q) → 0 ≤ q →
    ∃ q2, applyTrace s l id = some (JSNum.fin q2) ∧ 0 ≤ q2 := by
  intro l
  induction l with
  | nil =>
      intro s id q _ hid hq
      exact ⟨q, by simpa [applyTrace] using hid, hq⟩
  | cons op l ih =>
      intro s id q hall hid hq
      obtain ⟨q2, h1, h2⟩ := applyTraceOp_nonneg op (hall op (by simp)) hid hq
      obtain ⟨q3, h3, h4⟩ := ih (applyTraceOp s op) id q2
        (fun o ho => hall o (by simp [ho])) h1 h2
      exact ⟨q3, by simpa [applyTrace] using h3, h4⟩

/-- C2: the no-overdraft invariant.  First conjunct: every store mutation a
transfer run attempts is either the guarded conditional decrement or an
increment by a finite strictly positive amount (the engine's increments
reuse the validated amount, and a credit or refund is only reached after
the debit guard certified the amount finite and the validation certified it
positive).  Second conjunct: under any interleaving of such operations — at
the granularity of the store's atomic per-account updates — an account
whose balance starts non-negative keeps a non-negative balance. -/
theorem C2_no_overdraft :
    (∀ (s0 : Store) (req : Request) (f : Faults) (iv : Interference),
        ∀ op ∈ runTrace (transfer s0 req f iv), incOpPos op = true) ∧
    (∀ (l : List TraceOp) (s : Store) (id : String) (q : ℤ),
        (∀ op ∈ l, incOpPos op = true) → s id = some (JSNum.fin q) → 0 ≤ q →
        ∃ q2, applyTrace s l id = some (JSNum.fin q2) ∧ 0 ≤ q2) := by
  constructor
  · intro s0 req f iv
    obtain ⟨ofid, otid, oamt⟩ := req
    rcases ofid with _ | fid <;> rcases otid with _ | tid <;> rcases oamt with _ | amt
    all_goals try
      (simp [transfer, runTrace]
       done)
    rcases transfer_run_cases s0 fid tid amt f iv with
      ⟨hc, hT⟩ | ⟨h1, h2, h3, hT⟩ | ⟨h1, h2, h3, h4, hT⟩ | ⟨hpV, hc, hT⟩ |
      ⟨hpV, hpE, hsf, hT⟩ | ⟨hpV, hpE, hbf, hst, hT⟩ | ⟨hpV, hpE, hbf, hbt, hD, hT⟩ |
      ⟨hpV, hpE, hbf, hbt, hD, hdec, hT⟩ |
    ⟨hpV, hpE, hbf, hbt, hD, hdecT, hT⟩ |
      ⟨s2, sb, hpV, hpE, hexf, hext, hD, hdec, hC, o2, sB, trB, hR, hT⟩ |
      ⟨s2, sb, s4, rb, hpV, hpE, hexf, hext, hD, hdec, hC, hinc, hT⟩ |
      ⟨s2, sb, hpV, hpE, hexf, hext, hD, hdec, hC, hinc, hA, o2, sB, trB, hR, hT⟩ |
      ⟨s2, sb, s5, x, hpV, hpE, hexf, hext, hD, hdec, hC, hinc, hA, hinc3, hT⟩ |
      ⟨s2, sb, hpV, hpE, hexf, hext, hD, hdec, hC, hinc, hA, hinc3, hT⟩
    · rw [hT]
      simp [runTrace]
    · rw [hT]
      simp [runTrace]
    · rw [hT]
      simp [runTrace]
    · rw [hT]
      simp [runTrace, traceQ, incOpPos]
    · rw [hT]
      simp [runTrace, traceQ, incOpPos]
    · rw [hT]
      simp [runTrace, traceQ, incOpPos]
    · rw [hT]
      simp [runTrace, traceD, incOpPos]
    · rw [hT]
      simp [runTrace, traceD, incOpPos]
    · rw [hT]
      simp [runTrace, traceD, incOpPos]
    · obtain ⟨b, hb, hge, hb', hs2⟩ := condDecrement_eq_doc hdec
      obtain ⟨qa, ha, hqa⟩ := amt_pos_of_debit hpV.2.2.2 hge
      subst ha
      have htrB : trB = [TraceOp.refundB fid (JSNum.fin qa)] := by
        have h4 := runRefundB_trace (iv.g3 (iv.g2 s2)) fid (JSNum.fin qa) f.refundBThrows
        rw [hR] at h4
        exact h4
      subst htrB
      rw [hT]
      simp [runTrace, traceC, traceD, incOpPos, hqa]
    · obtain ⟨b, hb, hge, hb', hs2⟩ := condDecrement_eq_doc hdec
      obtain ⟨qa, ha, hqa⟩ := amt_pos_of_debit hpV.2.2.2 hge
      subst ha
      rw [hT]
      simp [runTrace, traceC, traceD, incOpPos, hqa]
    · obtain ⟨b, hb, hge, hb', hs2⟩ := condDecrement_eq_doc hdec
      obtain ⟨qa, ha, hqa⟩ := amt_pos_of_debit hpV.2.2.2 hge
      subst ha
      have htrB : trB = [TraceOp.refundB fid (JSNum.fin qa)] := by
        have h4 := runRefundB_trace (iv.g4 (iv.g3 (iv.g2 s2))) fid (JSNum.fin qa)
          f.refundBThrows
        rw [hR] at h4
        exact h4
      subst htrB
      rw [hT]
      simp [runTrace, traceR, traceC, traceD, incOpPos, hqa]
    · obtain ⟨b, hb, hge, hb', hs2⟩ := condDecrement_eq_doc hdec
      obtain ⟨qa, ha, hqa⟩ := amt_pos_of_debit hpV.2.2.2 hge
      subst ha
      rw [hT]
      simp [runTrace, traceR, traceC, traceD, incOpPos, hqa]
    · obtain ⟨b, hb, hge, hb', hs2⟩ := condDecrement_eq_doc hdec
      obtain ⟨qa, ha, hqa⟩ := amt_pos_of_debit hpV.2.2.2 hge
      subst ha
      rw [hT]
      simp [runTrace, traceR, traceC, traceD, incOpPos, hqa]
  · exact applyTrace_nonneg

/-- Witness for C2: a concrete debit-then-credit operation sequence keeps
the concrete account `idA` (initial balance 1000) non-negative. -/
theorem C2_no_overdraft_witness :
    ∃ q2, applyTrace storeW
      [TraceOp.condDec idA (JSNum.fin 200), TraceOp.credit idB (JSNum.fin 200)] idA =
        some (JSNum.fin q2) ∧ 0 ≤ q2 :=
  C2_no_overdraft.2
    [TraceOp.condDec idA (JSNum.fin 200), TraceOp.credit idB (JSNum.fin 200)]
    storeW idA 1000 (by decide) (by decide) (by decide)

/-- C3: conservation on success.  First conjunct (isolated run): a
`Completed` (200) response returns exactly `fromBalance = pre - amount`
and `toBalance = pre + amount` (JS addition, so a `NaN` recipient balance
propagates), the JS sum of the two returned balances equals the JS sum of
the two pre-transfer balances, and the final store holds exactly the two
returned balances.  Second conjunct: even under arbitrary concurrent
interference after the debit, the returned `fromBalance` is the value
produced by the atomic debit itself (pre-debit balance minus amount), not
a re-read of the final store. -/
theorem C3_conservation_on_success :
    (∀ (s0 : Store) (req : Request) (f : Faults) (fb tb : JSNum)
        (s' : Store) (tr : List TraceOp),
        transfer s0 req f noInterference = (Outcome.transferSuccessful fb tb, s', tr) →
        ∃ fid tid q bf bt0,
          req.fromUserId = some fid ∧ req.toUserId = some tid ∧
          req.amount = some (JSNum.fin q) ∧ fid ≠ tid ∧ 0 < q ∧
          s0 fid = some (JSNum.fin bf) ∧ s0 tid = some bt0 ∧ q ≤ bf ∧
          fb = JSNum.fin (bf - q) ∧ tb = JSNum.add bt0 (JSNum.fin q) ∧
          JSNum.add fb tb = JSNum.add (JSNum.fin bf) bt0 ∧
          s' fid = some fb ∧ s' tid = some tb) ∧
    (∀ (s0 : Store) (req : Request) (f : Faults) (iv : Interference)
        (fb tb : JSNum) (s' : Store) (tr : List TraceOp),
        iv.g1 = id →
        transfer s0 req f iv = (Outcome.transferSuccessful fb tb, s', tr) →
        ∃ fid q bf,
          req.fromUserId = some fid ∧ req.amount = some (JSNum.fin q) ∧
          s0 fid = some (JSNum.fin bf) ∧ fb = JSNum.fin (bf - q)) := by
  constructor
  · intro s0 req f fb tb s' tr hrun
    obtain ⟨ofid, otid, oamt⟩ := req
    rcases ofid with _ | fid <;> rcases otid with _ | tid <;> rcases oamt with _ | amt
    all_goals try
      (simp only [transfer] at hrun
       obtain ⟨ho, hs'eq, htr⟩ := triple_eq hrun
       simp at ho
       done)
    rcases transfer_run_cases s0 fid tid amt f noInterference with
      ⟨hc, hT⟩ | ⟨h1, h2, h3, hT⟩ | ⟨h1, h2, h3, h4, hT⟩ | ⟨hpV, hc, hT⟩ |
      ⟨hpV, hpE, hsf, hT⟩ | ⟨hpV, hpE, hbf, hst, hT⟩ | ⟨hpV, hpE, hbf, hbt, hD, hT⟩ |
      ⟨hpV, hpE, hbf, hbt, hD, hdec, hT⟩ |
    ⟨hpV, hpE, hbf, hbt, hD, hdecT, hT⟩ |
      ⟨s2, sb, hpV, hpE, hexf, hext, hD, hdec, hC, o2, sB, trB, hR, hT⟩ |
      ⟨s2, sb, s4, rb, hpV, hpE, hexf, hext, hD, hdec, hC, hinc, hT⟩ |
      ⟨s2, sb, hpV, hpE, hexf, hext, hD, hdec, hC, hinc, hA, o2, sB, trB, hR, hT⟩ |
      ⟨s2, sb, s5, x, hpV, hpE, hexf, hext, hD, hdec, hC, hinc, hA, hinc3, hT⟩ |
      ⟨s2, sb, hpV, hpE, hexf, hext, hD, hdec, hC, hinc, hA, hinc3, hT⟩
    all_goals try
      (obtain ⟨ho, hs'eq, htr⟩ := triple_eq (hT.symm.trans hrun)
       simp at ho
       done)
    all_goals try
      (rcases runRefundB_outcome hR with rfl | rfl
       all_goals obtain ⟨ho, hs'eq, htr⟩ := triple_eq (hT.symm.trans hrun)
       all_goals simp at ho
       done)
    simp only [noInterference, id_eq] at hdec hinc
    obtain ⟨ho, hs'eq, htr⟩ := triple_eq (hT.symm.trans hrun)
    subst hs'eq
    obtain ⟨hfb, htb⟩ : fb = sb ∧ tb = rb := by simpa using ho
    obtain ⟨b, hb, hge, hsb, hs2⟩ := condDecrement_eq_doc hdec
    obtain ⟨bf, q, hbf, hamt, hle2⟩ := JSNum.ge_eq_true hge
    subst hbf
    subst hamt
    have hq : 0 < q := by
      have := hpV.2.2.2
      simp [JSNum.le] at this
      omega
    obtain ⟨bt0, hbt0, hrb, hs4⟩ := increment_eq_doc hinc
    rw [hs2] at hbt0
    have htidfid : ¬ tid = fid := fun h => hpV.2.2.1 h.symm
    rw [Store.set] at hbt0
    simp only [htidfid, if_false] at hbt0
    refine ⟨fid, tid, q, bf, bt0, rfl, rfl, rfl, hpV.2.2.1, hq, hb, hbt0, hle2,
      ?_, ?_, ?_, ?_, ?_⟩
    · rw [hfb, hsb]
      simp [JSNum.add, JSNum.neg, sub_eq_add_neg]
    · rw [htb, hrb]
    · rw [hfb, htb, hsb, hrb]
      cases bt0 <;> simp [JSNum.add, JSNum.neg] <;> omega
    · rw [hs4, hs2]
      simp [Store.set, hpV.2.2.1, hfb]
    · rw [hs4]
      simp [Store.set, htb]
  · intro s0 req f iv fb tb s' tr hg1 hrun
    obtain ⟨ofid, otid, oamt⟩ := req
    rcases ofid with _ | fid <;> rcases otid with _ | tid <;> rcases oamt with _ | amt
    all_goals try
      (simp only [transfer] at hrun
       obtain ⟨ho, hs'eq, htr⟩ := triple_eq hrun
       simp at ho
       done)
    rcases transfer_run_cases s0 fid tid amt f iv with
      ⟨hc, hT⟩ | ⟨h1, h2, h3, hT⟩ | ⟨h1, h2, h3, h4, hT⟩ | ⟨hpV, hc, hT⟩ |
      ⟨hpV, hpE, hsf, hT⟩ | ⟨hpV, hpE, hbf, hst, hT⟩ | ⟨hpV, hpE, hbf, hbt, hD, hT⟩ |
      ⟨hpV, hpE, hbf, hbt, hD, hdec, hT⟩ |
    ⟨hpV, hpE, hbf, hbt, hD, hdecT, hT⟩ |
      ⟨s2, sb, hpV, hpE, hexf, hext, hD, hdec, hC, o2, sB, trB, hR, hT⟩ |
      ⟨s2, sb, s4, rb, hpV, hpE, hexf, hext, hD, hdec, hC, hinc, hT⟩ |
      ⟨s2, sb, hpV, hpE, hexf, hext, hD, hdec, hC, hinc, hA, o2, sB, trB, hR, hT⟩ |
      ⟨s2, sb, s5, x, hpV, hpE, hexf, hext, hD, hdec, hC, hinc, hA, hinc3, hT⟩ |
      ⟨s2, sb, hpV, hpE, hexf, hext, hD, hdec, hC, hinc, hA, hinc3, hT⟩
    all_goals try
      (obtain ⟨ho, hs'eq, htr⟩ := triple_eq (hT.symm.trans hrun)
       simp at ho
       done)
    all_goals try
      (rcases runRefundB_outcome hR with rfl | rfl
       all_goals obtain ⟨ho, hs'eq, htr⟩ := triple_eq (hT.symm.trans hrun)
       all_goals simp at ho
       done)
    rw [hg1] at hdec
    simp only [id_eq] at hdec
    obtain ⟨ho, hs'eq, htr⟩ := triple_eq (hT.symm.trans hrun)
    obtain ⟨hfb, htb⟩ : fb = sb ∧ tb = rb := by simpa using ho
    obtain ⟨b, hb, hge, hsb, hs2⟩ := condDecrement_eq_doc hdec
    obtain ⟨bf, q, hbf, hamt, hle2⟩ := JSNum.ge_eq_true hge
    subst hbf
    subst hamt
    refine ⟨fid, q, bf, rfl, rfl, hb, ?_⟩
    rw [hfb, hsb]
    simp [JSNum.add, JSNum.neg, sub_eq_add_neg]

/-- Witness for C3: the concrete scenario-A transfer (1000/500, amount
200) satisfies the conservation conclusion with returned balances 800 and
700. -/
theorem C3_conservation_on_success_witness :
    ∃ fid tid q bf bt0,
      reqW.fromUserId = some fid ∧ reqW.toUserId = some tid ∧
      reqW.amount = some (JSNum.fin q) ∧ fid ≠ tid ∧ 0 < q ∧
      storeW fid = some (JSNum.fin bf) ∧ storeW tid = some bt0 ∧ q ≤ bf ∧
      JSNum.fin 800 = JSNum.fin (bf - q) ∧
      JSNum.fin 700 = JSNum.add bt0 (JSNum.fin q) ∧
      JSNum.add (JSNum.fin 800) (JSNum.fin 700) = JSNum.add (JSNum.fin bf) bt0 ∧
      runStore (transfer storeW reqW noFaults noInterference) fid =
        some (JSNum.fin 800) ∧
      runStore (transfer storeW reqW noFaults noInterference) tid =
        some (JSNum.fin 700) :=
  C3_conservation_on_success.1 storeW reqW noFaults (JSNum.fin 800) (JSNum.fin 700)
    (runStore (transfer storeW reqW noFaults noInterference))
    (runTrace (transfer storeW reqW noFaults noInterference)) rfl

/-- Counterexample to C9 as stated: a `NaN` amount does pass input
validation, but it is NOT rejected at the conditional debit with 409
`InsufficientFunds` — Mongoose's Number cast (`assert.ok(!isNaN(val))`)
makes the debit `findOneAndUpdate` throw a `CastError`, and the concrete
run is answered by the outer catch's generic 500 `'Server error'`. -/
theorem C9_nan_amount_counterexample :
    runOutcome (transfer storeW reqNaN noFaults noInterference) =
      Outcome.serverError ∧
    isInvalidRequest (runOutcome (transfer storeW reqNaN noFaults noInterference)) =
      false := by
  constructor <;> decide

/-- C9 amended: a transfer whose amount is `NaN` passes input validation
(it is of number type, and `NaN <= 0` is false), so the strictly-positive
precondition is not enforced for it; with both accounts present the
request then fails at the conditional debit — not with 409, but because
Mongoose's Number cast rejects `NaN` and the `findOneAndUpdate` throws a
`CastError`, which the outer catch answers as the generic 500
`'Server error'` — and no balance is changed. -/
theorem C9_nan_amount_amended (s0 : Store) (fid tid : String) (f : Faults)
    (h1 : fid ≠ "") (h2 : tid ≠ "") (h3 : fid ≠ tid)
    (hvf : validId fid = true) (hvt : validId tid = true)
    (hE : f.existsThrows = false) (hD : f.debitThrows = false)
    (bf bt : JSNum) (hsf : s0 fid = some bf) (hst : s0 tid = some bt) :
    transfer s0 ⟨some fid, some tid, some JSNum.nan⟩ f noInterference =
      (Outcome.serverError, s0, traceD fid tid JSNum.nan) := by
  simp [transfer, h1, h2, h3, hE, hvf, hvt, hsf, hst, hD, condDecrement,
    noInterference, traceD, JSNum.le]

/-- Witness for C9 (amended): the concrete `NaN`-amount request against
the concrete two-account store is answered with the generic 500 and no
state change. -/
theorem C9_nan_amount_amended_witness :
    transfer storeW reqNaN noFaults noInterference =
      (Outcome.serverError, storeW, traceD idA idB JSNum.nan) :=
  C9_nan_amount_amended storeW idA idB noFaults (by decide) (by decide)
    (by decide) (by decide) (by decide) rfl rfl (JSNum.fin 1000) (JSNum.fin 500)
    (by decide) (by decide)

/-- C6: conservation on compensated failure, in an isolated run: whenever
the endpoint answers `PartiallyFailed{compensated: true}` (the
`'Credit failed; sender refunded (best-effort)'` 500), the sender's final
stored balance equals its pre-transfer balance — the debit of `amount`
followed by the compensating increment of the same `amount` restores it
exactly — and the recipient's balance is unchanged. -/
theorem C6_conservation_on_compensated_failure (s0 : Store) (req : Request)
    (f : Faults) (s' : Store) (tr : List TraceOp)
    (hrun : transfer s0 req f noInterference = (Outcome.bestEffortRefunded, s', tr)) :
    ∃ fid tid, req.fromUserId = some fid ∧ req.toUserId = some tid ∧
      s' fid = s0 fid ∧ s' tid = s0 tid := by
  obtain ⟨ofid, otid, oamt⟩ := req
  rcases ofid with _ | fid <;> rcases otid with _ | tid <;> rcases oamt with _ | amt
  all_goals try
    (simp only [transfer] at hrun
     obtain ⟨ho, hs'eq, htr⟩ := triple_eq hrun
     simp at ho
     done)
  rcases transfer_run_cases s0 fid tid amt f noInterference with
    ⟨hc, hT⟩ | ⟨h1, h2, h3, hT⟩ | ⟨h1, h2, h3, h4, hT⟩ | ⟨hpV, hc, hT⟩ |
    ⟨hpV, hpE, hsf, hT⟩ | ⟨hpV, hpE, hbf, hst, hT⟩ | ⟨hpV, hpE, hbf, hbt, hD, hT⟩ |
    ⟨hpV, hpE, hbf, hbt, hD, hdec, hT⟩ |
    ⟨hpV, hpE, hbf, hbt, hD, hdecT, hT⟩ |
    ⟨s2, sb, hpV, hpE, hexf, hext, hD, hdec, hC, o2, sB, trB, hR, hT⟩ |
    ⟨s2, sb, s4, rb, hpV, hpE, hexf, hext, hD, hdec, hC, hinc, hT⟩ |
    ⟨s2, sb, hpV, hpE, hexf, hext, hD, hdec, hC, hinc, hA, o2, sB, trB, hR, hT⟩ |
    ⟨s2, sb, s5, x, hpV, hpE, hexf, hext, hD, hdec, hC, hinc, hA, hinc3, hT⟩ |
    ⟨s2, sb, hpV, hpE, hexf, hext, hD, hdec, hC, hinc, hA, hinc3, hT⟩
  all_goals try
    (obtain ⟨ho, hs'eq, htr⟩ := triple_eq (hT.symm.trans hrun)
     simp at ho
     done)
  -- remaining: the credit-throw compensation path and the (impossible in
  -- an isolated run) vanished-recipient path
  · simp only [noInterference, id_eq] at hdec hR
    obtain ⟨ho, hs'eq, htr⟩ := triple_eq (hT.symm.trans hrun)
    subst hs'eq
    obtain ⟨b, hb, hge, hsb, hs2⟩ := condDecrement_eq_doc hdec
    obtain ⟨bf2, q, hbf2, hamt, hle2⟩ := JSNum.ge_eq_true hge
    subst hbf2
    subst hamt
    have htidfid : ¬ tid = fid := fun h => hpV.2.2.1 h.symm
    rcases runRefundB_cases s2 fid (JSNum.fin q) f.refundBThrows with
      ⟨hth, heq⟩ | ⟨hth, s'', bq, hincB, heq⟩ | ⟨hth, hincB, heq⟩ | ⟨hth, hnan, heq⟩
    · obtain ⟨hoeq, _, _⟩ := triple_eq (heq.symm.trans hR)
      rw [hoeq] at ho
      simp at ho
    · obtain ⟨hoeq, hsBeq, _⟩ := triple_eq (heq.symm.trans hR)
      obtain ⟨bb, hbb0, hbq, hs''⟩ := increment_eq_doc hincB
      rw [hs2] at hbb0
      have hset : Store.set s0 fid sb fid = some sb := by simp [Store.set]
      rw [hset] at hbb0
      obtain rfl : bb = sb := by simpa using hbb0.symm
      refine ⟨fid, tid, rfl, rfl, ?_, ?_⟩
      · rw [hsBeq, hs'', hs2, hb]
        simp [Store.set, hbq, hsb, JSNum.add, JSNum.neg]
        try omega
      · rw [hsBeq, hs'', hs2]
        simp [Store.set, htidfid]
    · have h0 := increment_eq_null hincB
      rw [hs2] at h0
      rw [Store.set] at h0
      simp at h0
    · exact absurd hnan (by simp)
  · simp only [noInterference, id_eq] at hdec hinc
    obtain ⟨b, hb, hge, hsb, hs2⟩ := condDecrement_eq_doc hdec
    have h0 := increment_eq_null hinc
    rw [hs2] at h0
    obtain ⟨bt, hst⟩ := hext
    have htidfid : ¬ tid = fid := fun h => hpV.2.2.1 h.symm
    rw [Store.set] at h0
    simp [htidfid, hst] at h0

/-- Witness for C6: a concrete run whose credit call throws answers
`compensated: true` and leaves both concrete accounts at their original
balances. -/
theorem C6_conservation_on_compensated_failure_witness :
    ∃ fid tid, reqW.fromUserId = some fid ∧ reqW.toUserId = some tid ∧
      runStore (transfer storeW reqW faultsCredit noInterference) fid = storeW fid ∧
      runStore (transfer storeW reqW faultsCredit noInterference) tid = storeW tid :=
  C6_conservation_on_compensated_failure storeW reqW faultsCredit
    (runStore (transfer storeW reqW faultsCredit noInterference))
    (runTrace (transfer storeW reqW faultsCredit noInterference)) rfl

/-- Counterexample to C4 as stated: when the recipient vanishes between
debit and credit and the line-115 refund throws, the engine attempts TWO
compensating increments in one request (the thrown line-115 refund is
caught by `catch (creditErr)`, which then runs the line-129 refund), not
exactly one. -/
theorem C4_exactly_one_compensation_counterexample :
    isCreditFailure (runOutcome (transfer storeW reqW faultsRefundA ivDelRecipient)) =
      true ∧
    refundCount (runTrace (transfer storeW reqW faultsRefundA ivDelRecipient)) = 2 := by
  constructor <;> decide

/-- C4 amended: for every transfer whose credit step fails, the engine
attempts at least one and at most two compensating increments: exactly one
on every path except when the refund issued after a null recipient update
itself throws, in which case the `catch (creditErr)` block issues a second
compensating increment. -/
theorem C4_exactly_one_compensation_amended (s0 : Store) (req : Request)
    (f : Faults) (iv : Interference) (o : Outcome) (s' : Store) (tr : List TraceOp)
    (hrun : transfer s0 req f iv = (o, s', tr))
    (hfail : isCreditFailure o = true) :
    refundCount tr = 1 ∨ (refundCount tr = 2 ∧ f.refundAThrows = true) := by
  obtain ⟨ofid, otid, oamt⟩ := req
  rcases ofid with _ | fid <;> rcases otid with _ | tid <;> rcases oamt with _ | amt
  all_goals try
    (simp only [transfer] at hrun
     obtain ⟨rfl, rfl, rfl⟩ := triple_eq hrun
     simp [isCreditFailure] at hfail
     done)
  rcases transfer_run_cases s0 fid tid amt f iv with
    ⟨hc, hT⟩ | ⟨h1, h2, h3, hT⟩ | ⟨h1, h2, h3, h4, hT⟩ | ⟨hpV, hc, hT⟩ |
    ⟨hpV, hpE, hsf, hT⟩ | ⟨hpV, hpE, hbf, hst, hT⟩ | ⟨hpV, hpE, hbf, hbt, hD, hT⟩ |
    ⟨hpV, hpE, hbf, hbt, hD, hdec, hT⟩ |
    ⟨hpV, hpE, hbf, hbt, hD, hdecT, hT⟩ |
    ⟨s2, sb, hpV, hpE, hexf, hext, hD, hdec, hC, o2, sB, trB, hR, hT⟩ |
    ⟨s2, sb, s4, rb, hpV, hpE, hexf, hext, hD, hdec, hC, hinc, hT⟩ |
    ⟨s2, sb, hpV, hpE, hexf, hext, hD, hdec, hC, hinc, hA, o2, sB, trB, hR, hT⟩ |
    ⟨s2, sb, s5, x, hpV, hpE, hexf, hext, hD, hdec, hC, hinc, hA, hinc3, hT⟩ |
    ⟨s2, sb, hpV, hpE, hexf, hext, hD, hdec, hC, hinc, hA, hinc3, hT⟩
  all_goals obtain ⟨rfl, rfl, rfl⟩ := triple_eq (hT.symm.trans hrun)
  all_goals try
    (simp [isCreditFailure] at hfail
     done)
  -- credit-throw path: one refund (the catch block's)
  · have htrB : trB = [TraceOp.refundB fid amt] := by
      have h4 := runRefundB_trace (iv.g3 (iv.g2 s2)) fid amt f.refundBThrows
      rw [hR] at h4
      exact h4
    subst htrB
    left
    simp [refundCount, traceC, traceD, isRefundOp]
  -- null-recipient path with thrown first refund: two refunds
  · have htrB : trB = [TraceOp.refundB fid amt] := by
      have h4 := runRefundB_trace (iv.g4 (iv.g3 (iv.g2 s2))) fid amt f.refundBThrows
      rw [hR] at h4
      exact h4
    subst htrB
    right
    refine ⟨?_, hA⟩
    simp [refundCount, traceR, traceC, traceD, isRefundOp]
  -- null-recipient path, first refund applied or null: one refund
  · left
    simp [refundCount, traceR, traceC, traceD, isRefundOp]
  · left
    simp [refundCount, traceR, traceC, traceD, isRefundOp]

/-- Witness for C4 (amended): a concrete credit-throw run attempts exactly
one compensating increment. -/
theorem C4_exactly_one_compensation_amended_witness :
    refundCount (runTrace (transfer storeW reqW faultsCredit noInterference)) = 1 ∨
    (refundCount (runTrace (transfer storeW reqW faultsCredit noInterference)) = 2 ∧
      faultsCredit.refundAThrows = true) :=
  C4_exactly_one_compensation_amended storeW reqW faultsCredit noInterference
    (runOutcome (transfer storeW reqW faultsCredit noInterference))
    (runStore (transfer storeW reqW faultsCredit noInterference))
    (runTrace (transfer storeW reqW faultsCredit noInterference)) rfl (by decide)

/-- Counterexample to C5 as stated: when the credit throws and the sender
account has vanished by compensation time, the refund `findByIdAndUpdate`
returns `null` (nothing is restored — the sender is gone and no account
received the funds back), yet the endpoint still answers the
`compensated: true` best-effort response instead of the critical
`compensated: false` one the claim requires for this case. -/
theorem C5_compensation_flag_counterexample :
    runOutcome (transfer storeW reqW faultsCredit ivDelSender) =
      Outcome.bestEffortRefunded ∧
    runStore (transfer storeW reqW faultsCredit ivDelSender) idA = none := by
  constructor <;> decide

/-- C5 amended: after a credit failure the critical `compensated: false`
response is returned exactly when the `catch (creditErr)` refund call
throws; whenever that refund call completes — including when it finds no
sender account and restores nothing — the endpoint answers the
`compensated: true` best-effort response. -/
theorem C5_compensation_flag_amended (s0 : Store) (req : Request) (f : Faults)
    (iv : Interference) (o : Outcome) (s' : Store) (tr : List TraceOp)
    (hrun : transfer s0 req f iv = (o, s', tr)) :
    (o = Outcome.criticalError ↔
      (f.refundBThrows = true ∧ tr.any isRefundBOp = true)) ∧
    (tr.any isRefundBOp = true → f.refundBThrows = false →
      o = Outcome.bestEffortRefunded) := by
  obtain ⟨ofid, otid, oamt⟩ := req
  rcases ofid with _ | fid <;> rcases otid with _ | tid <;> rcases oamt with _ | amt
  all_goals try
    (simp only [transfer] at hrun
     obtain ⟨rfl, rfl, rfl⟩ := triple_eq hrun
     simp [isRefundBOp]
     done)
  rcases transfer_run_cases s0 fid tid amt f iv with
    ⟨hc, hT⟩ | ⟨h1, h2, h3, hT⟩ | ⟨h1, h2, h3, h4, hT⟩ | ⟨hpV, hc, hT⟩ |
    ⟨hpV, hpE, hsf, hT⟩ | ⟨hpV, hpE, hbf, hst, hT⟩ | ⟨hpV, hpE, hbf, hbt, hD, hT⟩ |
    ⟨hpV, hpE, hbf, hbt, hD, hdec, hT⟩ |
    ⟨hpV, hpE, hbf, hbt, hD, hdecT, hT⟩ |
    ⟨s2, sb, hpV, hpE, hexf, hext, hD, hdec, hC, o2, sB, trB, hR, hT⟩ |
    ⟨s2, sb, s4, rb, hpV, hpE, hexf, hext, hD, hdec, hC, hinc, hT⟩ |
    ⟨s2, sb, hpV, hpE, hexf, hext, hD, hdec, hC, hinc, hA, o2, sB, trB, hR, hT⟩ |
    ⟨s2, sb, s5, x, hpV, hpE, hexf, hext, hD, hdec, hC, hinc, hA, hinc3, hT⟩ |
    ⟨s2, sb, hpV, hpE, hexf, hext, hD, hdec, hC, hinc, hA, hinc3, hT⟩
  all_goals obtain ⟨rfl, rfl, rfl⟩ := triple_eq (hT.symm.trans hrun)
  all_goals try
    (simp [traceQ, traceD, traceC, traceR, isRefundBOp]
     done)
  · rcases runRefundB_cases (iv.g3 (iv.g2 s2)) fid amt f.refundBThrows with
      ⟨hth, heq⟩ | ⟨hth, s'', bq, hincB, heq⟩ | ⟨hth, hincB, heq⟩ | ⟨hth, hnan, heq⟩
    · obtain ⟨rfl, rfl, rfl⟩ := triple_eq (heq.symm.trans hR)
      simp [traceC, traceD, isRefundBOp, hth]
    · obtain ⟨rfl, rfl, rfl⟩ := triple_eq (heq.symm.trans hR)
      simp [traceC, traceD, isRefundBOp, hth]
    · obtain ⟨rfl, rfl, rfl⟩ := triple_eq (heq.symm.trans hR)
      simp [traceC, traceD, isRefundBOp, hth]
    · rw [hnan] at hdec
      simp [condDecrement] at hdec
  · rcases runRefundB_cases (iv.g4 (iv.g3 (iv.g2 s2))) fid amt f.refundBThrows with
      ⟨hth, heq⟩ | ⟨hth, s'', bq, hincB, heq⟩ | ⟨hth, hincB, heq⟩ | ⟨hth, hnan, heq⟩
    · obtain ⟨rfl, rfl, rfl⟩ := triple_eq (heq.symm.trans hR)
      simp [traceR, traceC, traceD, isRefundBOp, hth]
    · obtain ⟨rfl, rfl, rfl⟩ := triple_eq (heq.symm.trans hR)
      simp [traceR, traceC, traceD, isRefundBOp, hth]
    · obtain ⟨rfl, rfl, rfl⟩ := triple_eq (heq.symm.trans hR)
      simp [traceR, traceC, traceD, isRefundBOp, hth]
    · rw [hnan] at hdec
      simp [condDecrement] at hdec

/-- Witness for C5 (amended): in a concrete credit-throw run whose refund
completes, the critical response is not produced and the best-effort
response is. -/
theorem C5_compensation_flag_amended_witness :
    (runOutcome (transfer storeW reqW faultsCredit noInterference) =
        Outcome.criticalError ↔
      (faultsCredit.refundBThrows = true ∧
        (runTrace (transfer storeW reqW faultsCredit noInterference)).any
          isRefundBOp = true)) ∧
    ((runTrace (transfer storeW reqW faultsCredit noInterference)).any
        isRefundBOp = true →
      faultsCredit.refundBThrows = false →
      runOutcome (transfer storeW reqW faultsCredit noInterference) =
        Outcome.bestEffortRefunded) :=
  C5_compensation_flag_amended storeW reqW faultsCredit noInterference
    (runOutcome (transfer storeW reqW faultsCredit noInterference))
    (runStore (transfer storeW reqW faultsCredit noInterference))
    (runTrace (transfer storeW reqW faultsCredit noInterference)) rfl

/-- Counterexample to C7 as stated: a request whose sender id is truthy
but not a syntactically valid ObjectId (`"abc"`) is NOT rejected with
`InvalidRequest` (400) before any store call — it passes the endpoint's
input validation, reaches the existence queries, and surfaces as the
generic 500 of the outer `catch` (the driver's `CastError`). -/
theorem C7_validation_counterexample :
    runOutcome (transfer storeW reqBadId noFaults noInterference) =
      Outcome.serverError ∧
    isInvalidRequest (runOutcome (transfer storeW reqBadId noFaults noInterference)) =
      false := by
  constructor <;> decide

/-- C7 amended: the engine answers `InvalidRequest` (400) exactly when the
body is malformed in the sense the code checks — a missing or falsy id, a
non-number amount (`NaN` still counts as a number), equal ids, or
`amount <= 0` — and on that path it makes no store call and leaves the
store untouched; syntactic id validity is NOT part of this validation
(invalid ids surface later as a generic 500 from the store layer). -/
theorem C7_validation_amended (s0 : Store) (req : Request) (f : Faults)
    (iv : Interference) :
    (isInvalidRequest (runOutcome (transfer s0 req f iv)) = true ↔
      reqMalformed req = true) ∧
    (reqMalformed req = true →
      runStore (transfer s0 req f iv) = s0 ∧ runTrace (transfer s0 req f iv) = []) := by
  obtain ⟨ofid, otid, oamt⟩ := req
  rcases ofid with _ | fid <;> rcases otid with _ | tid <;> rcases oamt with _ | amt
  all_goals try
    (simp [transfer, runOutcome, runStore, runTrace, isInvalidRequest, reqMalformed]
     done)
  rcases transfer_run_cases s0 fid tid amt f iv with
    ⟨hc, hT⟩ | ⟨h1, h2, h3, hT⟩ | ⟨h1, h2, h3, h4, hT⟩ | ⟨hpV, hc, hT⟩ |
    ⟨hpV, hpE, hsf, hT⟩ | ⟨hpV, hpE, hbf, hst, hT⟩ | ⟨hpV, hpE, hbf, hbt, hD, hT⟩ |
    ⟨hpV, hpE, hbf, hbt, hD, hdec, hT⟩ |
    ⟨hpV, hpE, hbf, hbt, hD, hdecT, hT⟩ |
    ⟨s2, sb, hpV, hpE, hexf, hext, hD, hdec, hC, o2, sB, trB, hR, hT⟩ |
    ⟨s2, sb, s4, rb, hpV, hpE, hexf, hext, hD, hdec, hC, hinc, hT⟩ |
    ⟨s2, sb, hpV, hpE, hexf, hext, hD, hdec, hC, hinc, hA, o2, sB, trB, hR, hT⟩ |
    ⟨s2, sb, s5, x, hpV, hpE, hexf, hext, hD, hdec, hC, hinc, hA, hinc3, hT⟩ |
    ⟨s2, sb, hpV, hpE, hexf, hext, hD, hdec, hC, hinc, hA, hinc3, hT⟩
  all_goals rw [hT]
  · rcases hc with hc | hc <;>
      simp [runOutcome, runStore, runTrace, isInvalidRequest, reqMalformed, hc]
  · simp [runOutcome, runStore, runTrace, isInvalidRequest, reqMalformed, h3]
  · simp [runOutcome, runStore, runTrace, isInvalidRequest, reqMalformed, h4]
  all_goals try
    (obtain ⟨hv1, hv2, hv3, hv4⟩ := hpV
     simp [runOutcome, runStore, runTrace, isInvalidRequest, reqMalformed,
       hv1, hv2, hv3, hv4]
     done)
  · obtain ⟨hv1, hv2, hv3, hv4⟩ := hpV
    rcases runRefundB_outcome hR with rfl | rfl <;>
      simp [runOutcome, runStore, runTrace, isInvalidRequest, reqMalformed,
        hv1, hv2, hv3, hv4]
  · obtain ⟨hv1, hv2, hv3, hv4⟩ := hpV
    rcases runRefundB_outcome hR with rfl | rfl <;>
      simp [runOutcome, runStore, runTrace, isInvalidRequest, reqMalformed,
        hv1, hv2, hv3, hv4]

/-- Witness for C7 (amended): the concrete equal-ids request is answered
with 400 `InvalidRequest`, with no store operation and no state change. -/
theorem C7_validation_amended_witness :
    isInvalidRequest (runOutcome (transfer storeW reqSame noFaults noInterference)) =
      true ∧
    runStore (transfer storeW reqSame noFaults noInterference) = storeW ∧
    runTrace (transfer storeW reqSame noFaults noInterference) = [] :=
  ⟨(C7_validation_amended storeW reqSame noFaults noInterference).1.mpr (by decide),
   (C7_validation_amended storeW reqSame noFaults noInterference).2 (by decide)⟩

/-- Counterexample to C8 as stated: a storage error during the existence
check surfaces as the outer catch's unclassified generic 500
`'Server error'`, which is none of the five kinds of the taxonomy. -/
theorem C8_error_taxonomy_counterexample :
    runOutcome (transfer storeW reqW faultsExists noInterference) =
      Outcome.serverError := by
  decide

/-- C8 amended: the generic 500 of the outer catch is reachable — exactly
when the existence check throws, an id fails the ObjectId cast, or the
debit call throws — but on every such path no compensating increment was
attempted and no debit had applied (the final store is the initial one,
or, when the thrown debit was already past the interference point, the
store as the concurrent environment left it).  The critical uncompensated
case, in turn, is never reported as the generic error: it is produced only
when the `catch (creditErr)` refund throws. -/
theorem C8_error_taxonomy_amended (s0 : Store) (req : Request) (f : Faults)
    (iv : Interference) (o : Outcome) (s' : Store) (tr : List TraceOp)
    (hrun : transfer s0 req f iv = (o, s', tr)) :
    (o = Outcome.serverError →
      refundCount tr = 0 ∧ (s' = s0 ∨ s' = iv.g1 s0) ∧
      (f.existsThrows = true ∨ f.debitThrows = true ∨
        (∃ fid tid, req.fromUserId = some fid ∧ req.toUserId = some tid ∧
          (validId fid = false ∨ validId tid = false)) ∨
        req.amount = some JSNum.nan)) ∧
    (o = Outcome.criticalError → f.refundBThrows = true) := by
  obtain ⟨ofid, otid, oamt⟩ := req
  rcases ofid with _ | fid <;> rcases otid with _ | tid <;> rcases oamt with _ | amt
  all_goals try
    (simp only [transfer] at hrun
     obtain ⟨rfl, rfl, rfl⟩ := triple_eq hrun
     simp
     done)
  rcases transfer_run_cases s0 fid tid amt f iv with
    ⟨hc, hT⟩ | ⟨h1, h2, h3, hT⟩ | ⟨h1, h2, h3, h4, hT⟩ | ⟨hpV, hc, hT⟩ |
    ⟨hpV, hpE, hsf, hT⟩ | ⟨hpV, hpE, hbf, hst, hT⟩ | ⟨hpV, hpE, hbf, hbt, hD, hT⟩ |
    ⟨hpV, hpE, hbf, hbt, hD, hdec, hT⟩ |
    ⟨hpV, hpE, hbf, hbt, hD, hdecT, hT⟩ |
    ⟨s2, sb, hpV, hpE, hexf, hext, hD, hdec, hC, o2, sB, trB, hR, hT⟩ |
    ⟨s2, sb, s4, rb, hpV, hpE, hexf, hext, hD, hdec, hC, hinc, hT⟩ |
    ⟨s2, sb, hpV, hpE, hexf, hext, hD, hdec, hC, hinc, hA, o2, sB, trB, hR, hT⟩ |
    ⟨s2, sb, s5, x, hpV, hpE, hexf, hext, hD, hdec, hC, hinc, hA, hinc3, hT⟩ |
    ⟨s2, sb, hpV, hpE, hexf, hext, hD, hdec, hC, hinc, hA, hinc3, hT⟩
  all_goals obtain ⟨rfl, rfl, rfl⟩ := triple_eq (hT.symm.trans hrun)
  -- validation failures, 404s, 409, success, rolled-back: neither generic
  -- nor critical
  all_goals try
    (simp
     done)
  -- existence check throws or an id fails the cast
  · refine ⟨fun _ => ⟨?_, Or.inl rfl, ?_⟩, by simp⟩
    · simp [refundCount, traceQ, isRefundOp]
    · rcases hc with hc | hc | hc
      · exact Or.inl hc
      · exact Or.inr (Or.inr (Or.inl ⟨fid, tid, rfl, rfl, Or.inl hc⟩))
      · exact Or.inr (Or.inr (Or.inl ⟨fid, tid, rfl, rfl, Or.inr hc⟩))
  -- debit throws
  · refine ⟨fun _ => ⟨?_, Or.inr rfl, Or.inr (Or.inl hD)⟩, by simp⟩
    simp [refundCount, traceD, isRefundOp]
  -- the debit call itself throws: the amount failed the Number cast
  · refine ⟨fun _ => ⟨?_, Or.inr rfl, ?_⟩, by simp⟩
    · simp [refundCount, traceD, isRefundOp]
    · exact Or.inr (Or.inr (Or.inr (by rw [condDecrement_eq_thrown hdecT])))
  -- credit-throw compensation path
  · rcases runRefundB_cases (iv.g3 (iv.g2 s2)) fid amt f.refundBThrows with
      ⟨hth, heq⟩ | ⟨hth, s'', bq, hincB, heq⟩ | ⟨hth, hincB, heq⟩ | ⟨hth, hnan, heq⟩
    · obtain ⟨rfl, rfl, rfl⟩ := triple_eq (heq.symm.trans hR)
      simp [hth]
    · obtain ⟨rfl, rfl, rfl⟩ := triple_eq (heq.symm.trans hR)
      simp [hth]
    · obtain ⟨rfl, rfl, rfl⟩ := triple_eq (heq.symm.trans hR)
      simp [hth]
    · rw [hnan] at hdec
      simp [condDecrement] at hdec
  -- null-recipient path with thrown first refund
  · rcases runRefundB_cases (iv.g4 (iv.g3 (iv.g2 s2))) fid amt f.refundBThrows with
      ⟨hth, heq⟩ | ⟨hth, s'', bq, hincB, heq⟩ | ⟨hth, hincB, heq⟩ | ⟨hth, hnan, heq⟩
    · obtain ⟨rfl, rfl, rfl⟩ := triple_eq (heq.symm.trans hR)
      simp [hth]
    · obtain ⟨rfl, rfl, rfl⟩ := triple_eq (heq.symm.trans hR)
      simp [hth]
    · obtain ⟨rfl, rfl, rfl⟩ := triple_eq (heq.symm.trans hR)
      simp [hth]
    · rw [hnan] at hdec
      simp [condDecrement] at hdec

/-- Witness for C8 (amended): in the concrete run whose existence check
throws, the generic 500 carries no refund attempt, no state change, and
its cause is the thrown existence check. -/
theorem C8_error_taxonomy_amended_witness :
    refundCount (runTrace (transfer storeW reqW faultsExists noInterference)) = 0 ∧
    (runStore (transfer storeW reqW faultsExists noInterference) = storeW ∨
      runStore (transfer storeW reqW faultsExists noInterference) =
        noInterference.g1 storeW) ∧
    (faultsExists.existsThrows = true ∨ faultsExists.debitThrows = true ∨
      (∃ fid tid, reqW.fromUserId = some fid ∧ reqW.toUserId = some tid ∧
        (validId fid = false ∨ validId tid = false)) ∨
      reqW.amount = some JSNum.nan) :=
  (C8_error_taxonomy_amended storeW reqW faultsExists noInterference
    (runOutcome (transfer storeW reqW faultsExists noInterference))
    (runStore (transfer storeW reqW faultsExists noInterference))
    (runTrace (transfer storeW reqW faultsExists noInterference)) rfl).1 (by decide)

/-- Counterexample to C10 as stated: creating an account with balance
`NaN` does not succeed — `user.save()` runs Mongoose's Number cast, which
rejects `NaN`, so the endpoint answers 500 and nothing is stored. -/
theorem C10_account_creation_counterexample :
    createUser storeW (some "Mallory") (some JSNum.nan) idB =
      CreateResult.saveError := by
  rfl

/-- C10 amended: `app.post('/users')` accepts any FINITE numeric balance
whenever the name is truthy — negative values included, so an account
violating the data-model invariant `balance >= 0` can be created (an
account created with balance `-5` is stored with a negative balance,
which the transfer engine never repairs: it only preserves
non-negativity, per the no-overdraft theorem) — but a `NaN` balance is
rejected when `user.save()` runs Mongoose's Number cast: the endpoint
answers 500 and no account is created. -/
theorem C10_account_creation_amended :
    (∀ (s : Store) (n : String) (q : ℤ) (newId : String), n ≠ "" →
        createUser s (some n) (some (JSNum.fin q)) newId =
          CreateResult.created (Store.set s newId (JSNum.fin q))) ∧
    (∀ (s : Store) (n : String) (newId : String), n ≠ "" →
        createUser s (some n) (some JSNum.nan) newId = CreateResult.saveError) ∧
    (∀ (s : Store) (n : String) (newId : String), n ≠ "" →
        ∃ st, createUser s (some n) (some (JSNum.fin (-5))) newId =
            CreateResult.created st ∧
          ∃ q : ℤ, st newId = some (JSNum.fin q) ∧ q < 0) := by
  refine ⟨?_, ?_, ?_⟩
  · intro s n q newId hn
    simp [createUser, hn]
  · intro s n newId hn
    simp [createUser, hn]
  · intro s n newId hn
    refine ⟨Store.set s newId (JSNum.fin (-5)), by simp [createUser, hn], -5, ?_, ?_⟩
    · simp [Store.set]
    · omega

/-- Witness for C10 (amended): creating the concrete account `"Mallory"`
with balance `-5` succeeds and stores the negative balance, while the
`NaN` variant is rejected at save time. -/
theorem C10_account_creation_amended_witness :
    createUser storeW (some "Mallory") (some (JSNum.fin (-5))) idB =
      CreateResult.created (Store.set storeW idB (JSNum.fin (-5))) ∧
    createUser storeW (some "Mallory") (some JSNum.nan) idB =
      CreateResult.saveError :=
  ⟨C10_account_creation_amended.1 storeW "Mallory" (-5) idB (by decide),
   C10_account_creation_amended.2.1 storeW "Mallory" idB (by decide)⟩
